import Mathlib

/-!
Verification of the countdown image server (`src/countdown-server/server.js`,
final version: the copy with the GIF cache and in-flight guard, lines 182-420).

Shallow embedding conventions:
* JS `Date` instants and `Date.now()` values are `Int` milliseconds since the
  epoch.  All quantities the program computes with them are integers well below
  2^53, so IEEE-754 `Math.floor` on their quotients is exact integer floor
  division and is modeled as such.
* Numeric layout coordinates produced by the frame renderer are modeled over
  `Rat`; the decimal literals of the source (0.004, 0.35, ...) are taken as
  exact rationals.  No claim depends on coordinate values, only on the
  structure and text payload of the drawing commands.
* The drawing surface (`ctx`) is modeled as the list of drawing commands a
  call issues, in program order.
* `Map` objects are association lists with `Map.get` / `Map.set` /
  `Map.delete` semantics (`mapLookup` / `mapInsert` / `mapErase`); `Map.set`
  is modeled as replace-or-insert.  No claim depends on iteration order.
-/

/-- `TARGET.getTime()` for the default `TARGET_ISO = "2026-01-31T10:30:00+02:00"`
(server.js line 191-192): 2026-01-31T08:30:00Z = 1769848200 epoch seconds. -/
def TARGET_MS : Int := 1769848200000

/-- The record returned by `getRemainingParts` (server.js lines 197-208).
The JS fields are nonnegative integers, so they are `Nat` here. -/
structure RemainingParts where
  days : Nat
  hours : Nat
  mins : Nat
  secs : Nat
  done : Bool
deriving DecidableEq

/-- `getRemainingParts(now)` (server.js lines 197-208): `diffMs = TARGET - now`;
if `diffMs <= 0` the all-zero record with `done: true`; otherwise
`totalSeconds = Math.floor(diffMs / 1000)` decomposed by integer division. -/
def getRemainingParts (nowMs : Int) : RemainingParts :=
  let diffMs := TARGET_MS - nowMs
  if diffMs ≤ 0 then { days := 0, hours := 0, mins := 0, secs := 0, done := true }
  else
    let totalSeconds := diffMs.toNat / 1000
    { days := totalSeconds / 86400
      hours := totalSeconds % 86400 / 3600
      mins := totalSeconds % 3600 / 60
      secs := totalSeconds % 60
      done := false }

/-- `pad2` (server.js line 195): `String(n).padStart(2, "0")`. -/
def pad2 (n : Nat) : String :=
  let s := toString n
  String.mk (List.replicate (2 - s.length) '0') ++ s

/-- C5: for every instant `now` strictly before the target, the fields of
`getRemainingParts now` reconstruct `floor((TARGET - now) / 1000)` exactly via
`days*86400 + hours*3600 + mins*60 + secs`, each field is the remainder stage
of the cascaded integer divisions by 86400, 3600 and 60, and the carry fields
satisfy `hours < 24`, `mins < 60`, `secs < 60`. -/
theorem C5_remaining_decomposition (now : Int) (h : now < TARGET_MS) :
    (getRemainingParts now).days * 86400 + (getRemainingParts now).hours * 3600 +
        (getRemainingParts now).mins * 60 + (getRemainingParts now).secs =
      (TARGET_MS - now).toNat / 1000 ∧
    (getRemainingParts now).hours < 24 ∧
    (getRemainingParts now).mins < 60 ∧
    (getRemainingParts now).secs < 60 ∧
    (getRemainingParts now).days = (TARGET_MS - now).toNat / 1000 / 86400 ∧
    (getRemainingParts now).hours = (TARGET_MS - now).toNat / 1000 % 86400 / 3600 ∧
    (getRemainingParts now).mins = (TARGET_MS - now).toNat / 1000 % 3600 / 60 ∧
    (getRemainingParts now).secs = (TARGET_MS - now).toNat / 1000 % 60 ∧
    (getRemainingParts now).done = false := by
  have hneg : ¬ (TARGET_MS - now ≤ 0) := by omega
  simp only [getRemainingParts, hneg, if_false]
  refine ⟨?_, ?_, ?_, ?_, ?_, ?_, ?_, ?_, ?_⟩ <;> first | trivial | omega

/-- Witness for C5 at the concrete instant `now = 0` (the epoch). -/
theorem C5_remaining_decomposition_witness :
    (0 : Int) < TARGET_MS ∧
      (getRemainingParts 0).days * 86400 + (getRemainingParts 0).hours * 3600 +
          (getRemainingParts 0).mins * 60 + (getRemainingParts 0).secs =
        (TARGET_MS - 0).toNat / 1000 :=
  ⟨by decide, (C5_remaining_decomposition 0 (by decide)).1⟩

/-- C6: at or after the target instant (`diff <= 0`), `getRemainingParts`
returns the all-zero record with `done = true`, as an ordinary value. -/
theorem C6_elapsed_zero (now : Int) (h : TARGET_MS ≤ now) :
    getRemainingParts now = { days := 0, hours := 0, mins := 0, secs := 0, done := true } := by
  have hle : TARGET_MS - now ≤ 0 := by omega
  simp only [getRemainingParts, hle, if_true]

/-- Witness for C6 exactly at the target instant. -/
theorem C6_elapsed_zero_witness :
    TARGET_MS ≤ TARGET_MS ∧
      getRemainingParts TARGET_MS =
        { days := 0, hours := 0, mins := 0, secs := 0, done := true } :=
  ⟨le_refl _, C6_elapsed_zero TARGET_MS (le_refl _)⟩

/-- C10: in the final sub-second before the deadline (`0 < TARGET - now < 1000`)
all four fields are zero while `done` is still `false`; only the flag
distinguishes this state from the elapsed one. -/
theorem C10_final_subsecond (now : Int) (h1 : 0 < TARGET_MS - now)
    (h2 : TARGET_MS - now < 1000) :
    getRemainingParts now = { days := 0, hours := 0, mins := 0, secs := 0, done := false } := by
  have hneg : ¬ (TARGET_MS - now ≤ 0) := by omega
  simp only [getRemainingParts, hneg, if_false]
  have ht : (TARGET_MS - now).toNat / 1000 = 0 := by omega
  simp only [ht]

/-- Witness for C10 at `now = TARGET_MS - 500`, half a second before target. -/
theorem C10_final_subsecond_witness :
    0 < TARGET_MS - (TARGET_MS - 500) ∧ TARGET_MS - (TARGET_MS - 500) < 1000 ∧
      getRemainingParts (TARGET_MS - 500) =
        { days := 0, hours := 0, mins := 0, secs := 0, done := false } :=
  ⟨by decide, by decide, C10_final_subsecond (TARGET_MS - 500) (by decide) (by decide)⟩

/-- The capability set of the 2D drawing surface used by `drawCountdownFrame`
(server.js lines 214-285): each constructor is one `ctx` call, recorded in
program order.  Style setters are property assignments on the `ctx`. -/
inductive DrawCmd where
  | setFillStyle (c : String)
  | fillRect (x y w h : Rat)
  | setStrokeStyle (c : String)
  | setLineWidth (w : Rat)
  | strokeRect (x y w h : Rat)
  | beginPath
  | moveTo (x y : Rat)
  | lineTo (x y : Rat)
  | stroke
  | setTextAlign (a : String)
  | setTextBaseline (b : String)
  | setFont (f : String)
  | fillText (s : String) (x y : Rat)
deriving DecidableEq

/-- JS `Math.round(x)`: the integer `floor(x + 1/2)` (ties round up). -/
def jsRound (x : Rat) : Int := ⌊x + 1 / 2⌋

/-- `drawCountdownFrame(ctx, {width, height}, now)` (server.js lines 214-285),
as the list of drawing commands it issues.  Layout values are the source's
expressions with its decimal literals read as exact rationals. -/
def drawCountdownFrame (width height : Int) (now : Int) : List DrawCmd :=
  let W : Rat := width
  let H : Rat := height
  let border : Int := max 2 (jsRound (W * (4 / 1000)))
  let paddingX : Int := jsRound (W * (4 / 100))
  let titleH : Int := jsRound (H * (35 / 100))
  let r := getRemainingParts now
  let values : List String := [pad2 r.days, pad2 r.hours, pad2 r.mins, pad2 r.secs]
  let labels : List String := ["DAYS", "HOURS", "MINUTES", "SECONDS"]
  let digitsTop : Int := titleH + jsRound (H * (10 / 100))
  let digitsBottom : Int := height - jsRound (H * (15 / 100))
  let digitsAreaH : Int := digitsBottom - digitsTop
  let colCount : Nat := 4
  let usableW : Int := width - paddingX * 2
  let colW : Rat := (usableW : Rat) / (colCount : Rat)
  let digitFontSize : Int := jsRound ((digitsAreaH : Rat) * (65 / 100))
  let labelFontSize : Int := jsRound ((digitsAreaH : Rat) * (16 / 100))
  [DrawCmd.setFillStyle "#ffffff",
   DrawCmd.fillRect 0 0 W H,
   DrawCmd.setStrokeStyle "#222222",
   DrawCmd.setLineWidth (border : Rat),
   DrawCmd.strokeRect 0 0 W H,
   DrawCmd.setStrokeStyle "#222222",
   DrawCmd.setLineWidth ((max 1 (border - 1) : Int) : Rat),
   DrawCmd.beginPath,
   DrawCmd.moveTo 0 (titleH : Rat),
   DrawCmd.lineTo W (titleH : Rat),
   DrawCmd.stroke,
   DrawCmd.setFillStyle "#111111",
   DrawCmd.setTextAlign "center",
   DrawCmd.setTextBaseline "middle",
   DrawCmd.setFont (toString (jsRound (H * (12 / 100))) ++ "px Arial"),
   DrawCmd.fillText "TIME TO NEXT AUCTION" (W / 2)
     ((titleH : Rat) / 2 + (jsRound (H * (2 / 100)) : Rat)),
   DrawCmd.setFillStyle "#111111",
   DrawCmd.setTextAlign "center",
   DrawCmd.setTextBaseline "alphabetic",
   DrawCmd.setFont (toString digitFontSize ++ "px Arial")] ++
  (List.range colCount).map (fun i =>
    DrawCmd.fillText (values.getD i "")
      ((paddingX : Rat) + colW * ((i : Rat) + 1 / 2))
      ((digitsTop : Rat) + (jsRound ((digitsAreaH : Rat) * (68 / 100)) : Rat))) ++
  [DrawCmd.setFont (toString labelFontSize ++ "px Arial"),
   DrawCmd.setTextBaseline "top"] ++
  (List.range colCount).map (fun i =>
    DrawCmd.fillText (labels.getD i "")
      ((paddingX : Rat) + colW * ((i : Rat) + 1 / 2))
      ((digitsTop : Rat) + (jsRound ((digitsAreaH : Rat) * (80 / 100)) : Rat)))

/-- The text strings a command list draws, in order. -/
def textsOf (cmds : List DrawCmd) : List String :=
  cmds.filterMap (fun c =>
    match c with
    | DrawCmd.fillText s _ _ => some s
    | _ => none)

/-- C9: every frame draws, after the fixed title, exactly the four zero-padded
two-digit strings `pad2 days, pad2 hours, pad2 mins, pad2 secs` of the
`getRemainingParts` record for its instant, followed by exactly the four fixed
captions DAYS, HOURS, MINUTES, SECONDS. -/
theorem C9_frame_texts (width height now : Int) :
    textsOf (drawCountdownFrame width height now) =
      ["TIME TO NEXT AUCTION",
       pad2 (getRemainingParts now).days, pad2 (getRemainingParts now).hours,
       pad2 (getRemainingParts now).mins, pad2 (getRemainingParts now).secs,
       "DAYS", "HOURS", "MINUTES", "SECONDS"] := by
  rfl

/-- The animated GIF a build produces (server.js lines 299-321): the encoder
configuration (`setRepeat(0)`, `setDelay(1000)`, `setQuality(10)`) and the
frames appended, each frame being the drawing commands issued on the shared
canvas before `addFrame`. -/
structure GIF where
  repeatCount : Int
  delayMs : Int
  quality : Int
  frames : List (List DrawCmd)
deriving DecidableEq

/-- `buildCountdownGIF({width, height, seconds})` (server.js lines 299-321).
`start` is `new Date()` with `setMilliseconds(0)`: the wall-clock value at
build time minus its millisecond component (`wallNow % 1000` with JS's
nonnegative `getMilliseconds`, i.e. `Int.emod`).  Frame `i`, for
`i = 0, 1, ..., seconds-1` in that order, is drawn at `start + i * 1000`. -/
def buildCountdownGIF (wallNow : Int) (width height : Int) (seconds : Int) : GIF :=
  let start : Int := wallNow - wallNow % 1000
  { repeatCount := 0
    delayMs := 1000
    quality := 10
    frames := (List.range seconds.toNat).map
      (fun (i : Nat) => drawCountdownFrame width height (start + (i : Int) * 1000)) }

/-- C8: a build anchors `start` at the wall clock truncated to the whole
second (`start` is a multiple of 1000 with `start ≤ wallNow < start + 1000`),
renders exactly `seconds` frames with frame `i` drawn at `start + i * 1000`
in increasing `i` order, and configures the encoder to loop forever
(repeat 0) at one frame per second (delay 1000 ms) with quality 10. -/
theorem C8_gif_structure (wallNow width height : Int) (seconds : Int) :
    (buildCountdownGIF wallNow width height seconds).repeatCount = 0 ∧
    (buildCountdownGIF wallNow width height seconds).delayMs = 1000 ∧
    (buildCountdownGIF wallNow width height seconds).quality = 10 ∧
    (buildCountdownGIF wallNow width height seconds).frames.length = seconds.toNat ∧
    ∃ start : Int, start % 1000 = 0 ∧ start ≤ wallNow ∧ wallNow < start + 1000 ∧
      ∀ i : Nat, i < seconds.toNat →
        (buildCountdownGIF wallNow width height seconds).frames[i]? =
          some (drawCountdownFrame width height (start + (i : Int) * 1000)) := by
  have hfr : (buildCountdownGIF wallNow width height seconds).frames =
      (List.range seconds.toNat).map
        (fun (i : Nat) =>
          drawCountdownFrame width height ((wallNow - wallNow % 1000) + (i : Int) * 1000)) :=
    rfl
  refine ⟨rfl, rfl, rfl, by rw [hfr, List.length_map, List.length_range], ?_⟩
  refine ⟨wallNow - wallNow % 1000, by omega, by omega, by omega, ?_⟩
  intro i hi
  rw [hfr, List.getElem?_map, List.getElem?_range hi]
  rfl

/-- Witness for C8 at `wallNow = 1234`, a 320 by 140 canvas and 10 seconds:
the frame list has exactly `(10 : Int).toNat` frames. -/
theorem C8_gif_structure_witness :
    (buildCountdownGIF 1234 320 140 10).frames.length = (10 : Int).toNat :=
  (C8_gif_structure 1234 320 140 10).2.2.2.1

/-- JS `parseInt(str, 10)` (ECMA ToInt32-free string grammar): skip leading
whitespace, take an optional sign, then the longest decimal-digit prefix;
`none` models the `NaN` result when no digit is found.  (For strings whose
digit prefix exceeds 2^53 the JS result is a rounded float; the clamped
values the server derives from it coincide with the exact-integer model,
since clamping only compares against 10..1200.) -/
def jsParseInt (str : String) : Option Int :=
  let trimmed := str.toList.dropWhile (fun c => c = ' ' ∨ c = '\t' ∨ c = '\n' ∨ c = '\r')
  let signAndRest : Int × List Char :=
    match trimmed with
    | '+' :: rest => (1, rest)
    | '-' :: rest => (-1, rest)
    | _ => (1, trimmed)
  let digits := signAndRest.2.takeWhile (fun c => c.isDigit)
  if digits = [] then none
  else some (signAndRest.1 *
    (digits.foldl (fun a c => a * 10 + (c.toNat - '0'.toNat)) (0 : Nat) : Nat))

/-- `req.query.w || "640"`: an absent parameter (`undefined`) and the empty
string are both falsy in JS, so both fall back to the default literal. -/
def queryOrDefault (q : Option String) (d : String) : String :=
  match q with
  | none => d
  | some s => if s = "" then d else s

/-- JS `Math.max(x, c)` with `NaN` propagation: `none` stands for `NaN`. -/
def jsMaxC (x : Option Int) (c : Int) : Option Int := x.map (fun v => max v c)

/-- JS `Math.min(x, c)` with `NaN` propagation: `none` stands for `NaN`. -/
def jsMinC (x : Option Int) (c : Int) : Option Int := x.map (fun v => min v c)

/-- `w` of the GIF route (server.js line 362):
`Math.min(Math.max(parseInt(req.query.w || "640", 10), 320), 1200)`. -/
def clampedW (q : Option String) : Option Int :=
  jsMinC (jsMaxC (jsParseInt (queryOrDefault q "640")) 320) 1200

/-- `h` of the GIF route (server.js line 363):
`Math.min(Math.max(parseInt(req.query.h || "200", 10), 140), 600)`. -/
def clampedH (q : Option String) : Option Int :=
  jsMinC (jsMaxC (jsParseInt (queryOrDefault q "200")) 140) 600

/-- `s` of the GIF route (server.js line 366):
`Math.min(Math.max(parseInt(req.query.s || "60", 10), 10), 120)`. -/
def clampedS (q : Option String) : Option Int :=
  jsMinC (jsMaxC (jsParseInt (queryOrDefault q "60")) 10) 120

/-- Counterexample to C7 as stated: for the query string `w=abc` the computed
width is `NaN` (`parseInt("abc", 10)` is `NaN` and `Math.max` / `Math.min`
propagate it), so it is not an integer clamped into [320, 1200]. -/
theorem C7_nonnumeric_not_clamped :
    clampedW (some "abc") = none ∧
    ¬ ∃ n : Int, clampedW (some "abc") = some n ∧ 320 ≤ n ∧ n ≤ 1200 := by
  have h : clampedW (some "abc") = none := by decide
  exact ⟨h, by rintro ⟨n, hn, -, -⟩; rw [h] at hn; exact Option.noConfusion hn⟩

/-- C7 (amended): when a parameter is absent the defaults 640 / 200 / 60 are
used; when the supplied value parses to an integer `n` (JS `parseInt` finds a
digit prefix), the parameter is `min (max n lo) hi` for the route bounds
[320, 1200], [140, 600], [10, 120], hence always inside those bounds; in
particular `w=50` yields 320, `w=9999` yields 1200, `s=5` yields 10 and
`s=500` yields 120.  A value `parseInt` cannot parse yields `NaN` instead
(see the counterexample), which is the only departure from the claim. -/
theorem C7_clamping_parsed :
    (clampedW none = some 640 ∧ clampedH none = some 200 ∧ clampedS none = some 60) ∧
    (∀ s0 : String, ∀ n : Int, s0 ≠ "" → jsParseInt s0 = some n →
      clampedW (some s0) = some (min (max n 320) 1200) ∧
        320 ≤ min (max n 320) 1200 ∧ min (max n 320) 1200 ≤ 1200) ∧
    (∀ s0 : String, ∀ n : Int, s0 ≠ "" → jsParseInt s0 = some n →
      clampedH (some s0) = some (min (max n 140) 600) ∧
        140 ≤ min (max n 140) 600 ∧ min (max n 140) 600 ≤ 600) ∧
    (∀ s0 : String, ∀ n : Int, s0 ≠ "" → jsParseInt s0 = some n →
      clampedS (some s0) = some (min (max n 10) 120) ∧
        10 ≤ min (max n 10) 120 ∧ min (max n 10) 120 ≤ 120) ∧
    (clampedW (some "50") = some 320 ∧ clampedW (some "9999") = some 1200 ∧
      clampedS (some "5") = some 10 ∧ clampedS (some "500") = some 120) := by
  refine ⟨⟨by decide, by decide, by decide⟩, ?_, ?_, ?_,
    ⟨by decide, by decide, by decide, by decide⟩⟩ <;>
    · intro s0 n hne hp
      refine ⟨?_, by omega, by omega⟩
      simp [clampedW, clampedH, clampedS, queryOrDefault, hne, hp, jsMaxC, jsMinC]

/-- Witness for C7's amended theorem: the parameter value `"700"` parses to
700 and is clamped to `min (max 700 320) 1200`. -/
theorem C7_clamping_parsed_witness :
    ("700" : String) ≠ "" ∧ jsParseInt "700" = some 700 ∧
      clampedW (some "700") = some (min (max 700 320) 1200) :=
  ⟨by decide, by decide, (C7_clamping_parsed.2.1 "700" 700 (by decide) (by decide)).1⟩

/-- Cache keys (`gifKey` returns a string). -/
abbrev Key := String

/-- `gifKey(w, h, s)` (server.js lines 331-333): the template
literal producing e.g. `"640x200_s60"`. -/
def gifKey (w h s : Int) : Key :=
  toString w ++ "x" ++ toString h ++ "_s" ++ toString s

/-- `Map.get`: the value stored at `k`, if any. -/
def mapLookup (m : List (Key × α)) (k : Key) : Option α :=
  match m with
  | [] => none
  | (k1, v) :: rest => if k1 = k then some v else mapLookup rest k

/-- `Map.delete k`: removes any binding of `k`. -/
def mapErase (m : List (Key × α)) (k : Key) : List (Key × α) :=
  match m with
  | [] => []
  | (k1, v) :: rest => if k1 = k then mapErase rest k else (k1, v) :: mapErase rest k

/-- `Map.set k v`: replace-or-insert.  (JS keeps the original insertion
position on replacement; no claim depends on iteration order, so the binding
is kept at the front.) -/
def mapInsert (m : List (Key × α)) (k : Key) (v : α) : List (Key × α) :=
  (k, v) :: mapErase m k

theorem mapLookup_erase_self (m : List (Key × α)) (k : Key) :
    mapLookup (mapErase m k) k = none := by
  induction m with
  | nil => rfl
  | cons p rest ih =>
    by_cases h : p.1 = k <;> simp [mapErase, mapLookup, h, ih]

theorem mapLookup_erase_ne (m : List (Key × α)) (k k2 : Key) (h : k2 ≠ k) :
    mapLookup (mapErase m k) k2 = mapLookup m k2 := by
  induction m with
  | nil => rfl
  | cons p rest ih =>
    have hk2 : k ≠ k2 := fun hk => h hk.symm
    by_cases hp : p.1 = k
    · simp [mapErase, mapLookup, hp, hk2, ih]
    · by_cases hp2 : p.1 = k2 <;> simp [mapErase, mapLookup, hp, hp2, h, hk2, ih]

theorem mapLookup_insert_self (m : List (Key × α)) (k : Key) (v : α) :
    mapLookup (mapInsert m k v) k = some v := by
  simp [mapInsert, mapLookup]

theorem mapLookup_insert_ne (m : List (Key × α)) (k k2 : Key) (v : α) (h : k2 ≠ k) :
    mapLookup (mapInsert m k v) k2 = mapLookup m k2 := by
  have : k ≠ k2 := fun hk => h hk.symm
  simp [mapInsert, mapLookup, this, mapLookup_erase_ne m k k2 h]

/-- A `gifCache` entry (server.js line 328): `{ buf, expiresAt }`. -/
structure CacheEntry where
  buf : GIF
  expiresAt : Int
deriving DecidableEq

/-- The result a settled build promise carries: the bytes, or a rejection. -/
abbrev BuildResult := Except Unit GIF

instance {ε α : Type} [DecidableEq ε] [DecidableEq α] : DecidableEq (Except ε α)
  | Except.ok x, Except.ok y => decidable_of_iff (x = y) (by simp)
  | Except.ok _, Except.error _ => Decidable.isFalse (by simp)
  | Except.error _, Except.ok _ => Decidable.isFalse (by simp)
  | Except.error e, Except.error f => decidable_of_iff (e = f) (by simp)

/-- The module-level mutable state of the server (server.js lines 328-329),
plus `builds`, an instrumentation counter of `buildCountdownGIF` invocations
(the spec's testable property asks for exactly this count). -/
structure ServerState where
  gifCache : List (Key × CacheEntry)
  gifInFlight : List (Key × BuildResult)
  builds : Nat
deriving DecidableEq

/-- The empty maps the process starts with. -/
def initState : ServerState := { gifCache := [], gifInFlight := [], builds := 0 }

/-- One GET /countdown.gif request, after the clamping of lines 362-366:
`w`, `h`, `s` are the clamped integers, `now` is `Date.now()` read at line
379, and `buildOk` is the oracle for whether `buildCountdownGIF` would throw
if this request invokes it (rendering/encoding failures are external). -/
structure GifReq where
  w : Int
  h : Int
  s : Int
  now : Int
  buildOk : Bool
deriving DecidableEq

/-- Response to one request: the bytes with status 200, or
`res.status(500).end()`. -/
inductive Response where
  | ok (buf : GIF)
  | serverError
deriving DecidableEq

/-- Observable events of one handler run, in program order:
`render` marks the invocation of `buildCountdownGIF` (the render work),
`cacheSet` the `gifCache.set`, `registerInFlight` the `gifInFlight.set`,
`deleteInFlight` the `gifInFlight.delete`, `cacheHit` a fresh-cache return
and `joinInFlight` the branch that awaits an existing in-flight promise. -/
inductive Ev where
  | cacheHit
  | joinInFlight
  | render
  | cacheSet
  | registerInFlight
  | deleteInFlight
deriving DecidableEq

/-- Everything one handler run produces. -/
structure StepOut where
  st : ServerState
  resp : Response
  trace : List Ev
deriving DecidableEq

/-!
Scheduling model for the async handler (server.js lines 361-415).

The handler is an `async` function on a single-threaded event loop.  Its body
has exactly two `await`s: line 390 (`await gifInFlight.get(key)`) and line 408
(`await buildPromise`).  The build itself is created as
`const buildPromise = (async () => { const buf = buildCountdownGIF(...);
gifCache.set(...); return buf; })();` — an async function body runs
synchronously until its first `await`, and this body contains none, so by the
time `buildPromise` is assigned the render has already completed (or thrown)
and the promise is already settled; `gifInFlight.set(key, buildPromise)`
(line 405) therefore stores an already-settled promise, after the render.

Consequently every promise the handler can await is settled when awaited, and
the continuation after such an `await` runs as a microtask, which the event
loop drains before the next I/O macrotask (the next request's handler).  So
one request's handler — including the `finally { gifInFlight.delete(key) }` —
runs to completion before the next request's handler starts, and a batch of
concurrent requests is processed sequentially in arrival order.  The model
below processes a request atomically through both phases and threads the
state through a list of requests; the in-flight branch of lines 388-396 is
kept faithfully even though, under this scheduling, no reachable state
between two requests has a pending in-flight entry.
-/

/-- The cache-miss continuation of the handler (server.js lines 388-414),
entered when there is no fresh cache entry for `key`. -/
def processGifMiss (st : ServerState) (r : GifReq) (key : Key) : StepOut :=
  match mapLookup st.gifInFlight key with
  | some p =>
    -- lines 388-396: `await gifInFlight.get(key)` (settled); on rejection the
    -- catch block deletes the entry and responds 500
    (match p with
     | Except.ok buf => { st := st, resp := Response.ok buf, trace := [Ev.joinInFlight] }
     | Except.error _ =>
        { st := { st with gifInFlight := mapErase st.gifInFlight key },
          resp := Response.serverError, trace := [Ev.joinInFlight] })
  | none =>
    -- lines 399-403: the async IIFE body runs synchronously: the render, and
    -- on success `gifCache.set(key, { buf, expiresAt: now + 60_000 })`
    let buildRes : BuildResult :=
      if r.buildOk then Except.ok (buildCountdownGIF r.now r.w r.h r.s) else Except.error ()
    let st1 : ServerState :=
      match buildRes with
      | Except.ok g =>
        { st with builds := st.builds + 1,
                  gifCache := mapInsert st.gifCache key { buf := g, expiresAt := r.now + 60000 } }
      | Except.error _ => { st with builds := st.builds + 1 }
    -- line 405: `gifInFlight.set(key, buildPromise)` with the settled promise
    let st2 : ServerState := { st1 with gifInFlight := mapInsert st1.gifInFlight key buildRes }
    -- lines 407-414: `await buildPromise`; respond; `finally` deletes the entry
    let st3 : ServerState := { st2 with gifInFlight := mapErase st2.gifInFlight key }
    { st := st3
      resp := match buildRes with
        | Except.ok g => Response.ok g
        | Except.error _ => Response.serverError
      trace := match buildRes with
        | Except.ok _ => [Ev.render, Ev.cacheSet, Ev.registerInFlight, Ev.deleteInFlight]
        | Except.error _ => [Ev.render, Ev.registerInFlight, Ev.deleteInFlight] }

/-- One full handler run for GET /countdown.gif (server.js lines 361-415):
compute the key (line 378), read `Date.now()` (line 379), serve a fresh cache
entry if `cached.expiresAt > now` (lines 382-385), otherwise continue with
the miss path. -/
def processGifRequest (st : ServerState) (r : GifReq) : StepOut :=
  let key := gifKey r.w r.h r.s
  match mapLookup st.gifCache key with
  | some cached =>
    if cached.expiresAt > r.now then
      { st := st, resp := Response.ok cached.buf, trace := [Ev.cacheHit] }
    else processGifMiss st r key
  | none => processGifMiss st r key

/-- Sequential processing of a batch of requests (see the scheduling note). -/
def runGifRequests (st : ServerState) (reqs : List GifReq) : ServerState × List Response :=
  match reqs with
  | [] => (st, [])
  | r :: rest =>
    let out := processGifRequest st r
    let (st2, resps) := runGifRequests out.st rest
    (st2, out.resp :: resps)

theorem mapErase_idem (m : List (Key × α)) (k : Key) :
    mapErase (mapErase m k) k = mapErase m k := by
  induction m with
  | nil => rfl
  | cons p rest ih =>
    by_cases h : p.1 = k <;> simp [mapErase, h, ih]

theorem mapErase_of_lookup_none (m : List (Key × α)) (k : Key)
    (h : mapLookup m k = none) : mapErase m k = m := by
  induction m with
  | nil => rfl
  | cons p rest ih =>
    by_cases hp : p.1 = k
    · simp [mapLookup, hp] at h
    · simp [mapLookup, hp] at h
      simp [mapErase, hp, ih h]

theorem mapErase_insert (m : List (Key × α)) (k : Key) (v : α) :
    mapErase (mapInsert m k v) k = mapErase m k := by
  simp [mapInsert, mapErase, mapErase_idem]

/-- Shape of a fresh successful build (server.js lines 399-414 with a
returning `buildCountdownGIF`): bumps the build counter, stores the entry
with a 60 s TTL, and leaves `gifInFlight` as it was (set at line 405,
deleted at line 413). -/
theorem processGifMiss_ok (st : ServerState) (r : GifReq) (key : Key)
    (hf : mapLookup st.gifInFlight key = none) (hok : r.buildOk = true) :
    processGifMiss st r key =
      { st := { gifCache := mapInsert st.gifCache key
                  { buf := buildCountdownGIF r.now r.w r.h r.s, expiresAt := r.now + 60000 },
                gifInFlight := st.gifInFlight,
                builds := st.builds + 1 },
        resp := Response.ok (buildCountdownGIF r.now r.w r.h r.s),
        trace := [Ev.render, Ev.cacheSet, Ev.registerInFlight, Ev.deleteInFlight] } := by
  simp only [processGifMiss, hf, hok, if_true]
  simp [mapErase_insert, mapErase_of_lookup_none _ _ hf]

/-- Shape of a fresh failing build (server.js lines 399-414 with a throwing
`buildCountdownGIF`): bumps the build counter, stores nothing in the cache,
responds 500, and leaves `gifInFlight` as it was. -/
theorem processGifMiss_fail (st : ServerState) (r : GifReq) (key : Key)
    (hf : mapLookup st.gifInFlight key = none) (hfail : r.buildOk = false) :
    processGifMiss st r key =
      { st := { gifCache := st.gifCache,
                gifInFlight := st.gifInFlight,
                builds := st.builds + 1 },
        resp := Response.serverError,
        trace := [Ev.render, Ev.registerInFlight, Ev.deleteInFlight] } := by
  simp only [processGifMiss, hf, hfail, if_false]
  simp [mapErase_insert, mapErase_of_lookup_none _ _ hf]

/-- A fresh cache entry short-circuits the handler (server.js lines 382-385). -/
theorem processGifRequest_hit (st : ServerState) (r : GifReq) (e : CacheEntry)
    (he : mapLookup st.gifCache (gifKey r.w r.h r.s) = some e)
    (hfresh : r.now < e.expiresAt) :
    processGifRequest st r = { st := st, resp := Response.ok e.buf, trace := [Ev.cacheHit] } := by
  simp only [processGifRequest, he]
  rw [if_pos]
  exact hfresh

/-- With no fresh cache entry the handler continues on the miss path. -/
theorem processGifRequest_miss (st : ServerState) (r : GifReq)
    (hc : ∀ e, mapLookup st.gifCache (gifKey r.w r.h r.s) = some e → e.expiresAt ≤ r.now) :
    processGifRequest st r = processGifMiss st r (gifKey r.w r.h r.s) := by
  simp only [processGifRequest]
  cases h : mapLookup st.gifCache (gifKey r.w r.h r.s) with
  | none => rfl
  | some e =>
    have hle := hc e h
    have hnot : ¬ (e.expiresAt > r.now) := by omega
    simp [hnot]

/-- A state whose cache holds a fresh entry for the key serves every further
request for that key from the cache, unchanged. -/
theorem runGifRequests_replicate_hit (r : GifReq) (st : ServerState) (e : CacheEntry)
    (he : mapLookup st.gifCache (gifKey r.w r.h r.s) = some e)
    (hfresh : r.now < e.expiresAt) (m : Nat) :
    runGifRequests st (List.replicate m r) = (st, List.replicate m (Response.ok e.buf)) := by
  induction m with
  | zero => rfl
  | succ m ih =>
    rw [List.replicate_succ]
    simp only [runGifRequests, processGifRequest_hit st r e he hfresh, ih]
    simp [List.replicate_succ]

/-- Counterexample to C1 as stated: two concurrent requests for the same
clamped key whose builds fail.  Each request runs its own build (the rejected
promise is deleted from `gifInFlight` in the same handler run that created
it, before the next request's handler starts), so two invocations of
`buildCountdownGIF` execute, not exactly one. -/
theorem C1_failure_not_single_build :
    (runGifRequests initState
        [{ w := 320, h := 140, s := 10, now := 0, buildOk := false },
         { w := 320, h := 140, s := 10, now := 0, buildOk := false }]).1.builds = 2 ∧
    ¬ (runGifRequests initState
        [{ w := 320, h := 140, s := 10, now := 0, buildOk := false },
         { w := 320, h := 140, s := 10, now := 0, buildOk := false }]).1.builds = 1 ∧
    (runGifRequests initState
        [{ w := 320, h := 140, s := 10, now := 0, buildOk := false },
         { w := 320, h := 140, s := 10, now := 0, buildOk := false }]).2 =
      [Response.serverError, Response.serverError] := by
  refine ⟨?_, ?_, ?_⟩ <;> decide

/-- C1 (amended): under N simultaneous requests for the same clamped
`(w, h, s)` whose build succeeds, exactly one invocation of
`buildCountdownGIF` executes and all N requests receive the same bytes (the
first request builds and caches synchronously; every later request is a
fresh cache hit).  When the build fails the single-flight sharing does not
apply: each request runs its own failing build (see the counterexample),
though each then observes the same server-error status. -/
theorem C1_single_flight_success (r : GifReq) (n : Nat) (hok : r.buildOk = true)
    (hn : 0 < n) :
    (runGifRequests initState (List.replicate n r)).1.builds = 1 ∧
    (runGifRequests initState (List.replicate n r)).2 =
      List.replicate n (Response.ok (buildCountdownGIF r.now r.w r.h r.s)) := by
  obtain ⟨m, rfl⟩ : ∃ m, n = m + 1 := ⟨n - 1, by omega⟩
  have hmiss : processGifRequest initState r = processGifMiss initState r (gifKey r.w r.h r.s) :=
    rfl
  have hstep := processGifMiss_ok initState r (gifKey r.w r.h r.s) rfl hok
  rw [List.replicate_succ]
  simp only [runGifRequests, hmiss, hstep]
  have hlook :
      mapLookup (mapInsert ([] : List (Key × CacheEntry)) (gifKey r.w r.h r.s)
          { buf := buildCountdownGIF r.now r.w r.h r.s, expiresAt := r.now + 60000 })
        (gifKey r.w r.h r.s) =
      some { buf := buildCountdownGIF r.now r.w r.h r.s, expiresAt := r.now + 60000 } :=
    mapLookup_insert_self _ _ _
  rw [runGifRequests_replicate_hit r _ _ hlook (by show r.now < r.now + 60000; omega) m]
  exact ⟨rfl, by simp [List.replicate_succ]⟩

/-- Witness for C1's amended theorem: three simultaneous requests for
`320x140_s10` at `now = 0`, successful build. -/
theorem C1_single_flight_success_witness :
    ({ w := 320, h := 140, s := 10, now := 0, buildOk := true } : GifReq).buildOk = true ∧
    (0 : Nat) < 3 ∧
    (runGifRequests initState
        (List.replicate 3 ({ w := 320, h := 140, s := 10, now := 0, buildOk := true } : GifReq))).1.builds = 1 :=
  ⟨rfl, by decide,
    (C1_single_flight_success { w := 320, h := 140, s := 10, now := 0, buildOk := true } 3
      rfl (by decide)).1⟩

/-- C2: a cached entry is served exactly while `now < expiresAt` (strict):
a request strictly before expiry returns the stored bytes with the state —
hence the build counter — unchanged; a request at or after expiry runs a new
build; and a successful build performed at instant `now` stores its entry
with `expiresAt = now + 60000`, the 60-second TTL. -/
theorem C2_cache_ttl (st : ServerState) (r : GifReq) (e : CacheEntry)
    (he : mapLookup st.gifCache (gifKey r.w r.h r.s) = some e) :
    (r.now < e.expiresAt →
      processGifRequest st r = { st := st, resp := Response.ok e.buf, trace := [Ev.cacheHit] }) ∧
    (e.expiresAt ≤ r.now → mapLookup st.gifInFlight (gifKey r.w r.h r.s) = none →
      (processGifRequest st r).st.builds = st.builds + 1) ∧
    (e.expiresAt ≤ r.now → mapLookup st.gifInFlight (gifKey r.w r.h r.s) = none →
      r.buildOk = true →
      mapLookup (processGifRequest st r).st.gifCache (gifKey r.w r.h r.s) =
        some { buf := buildCountdownGIF r.now r.w r.h r.s, expiresAt := r.now + 60000 }) := by
  refine ⟨fun hfresh => processGifRequest_hit st r e he hfresh, ?_, ?_⟩
  · intro hexp hf
    have hc : ∀ e2, mapLookup st.gifCache (gifKey r.w r.h r.s) = some e2 →
        e2.expiresAt ≤ r.now := by
      intro e2 he2
      rw [he] at he2
      cases he2
      exact hexp
    rw [processGifRequest_miss st r hc]
    cases hok : r.buildOk
    · rw [processGifMiss_fail st r _ hf hok]
    · rw [processGifMiss_ok st r _ hf hok]
  · intro hexp hf hok
    have hc : ∀ e2, mapLookup st.gifCache (gifKey r.w r.h r.s) = some e2 →
        e2.expiresAt ≤ r.now := by
      intro e2 he2
      rw [he] at he2
      cases he2
      exact hexp
    rw [processGifRequest_miss st r hc, processGifMiss_ok st r _ hf hok]
    exact mapLookup_insert_self _ _ _

/-- Witness for C2: a state holding an entry for `320x140_s10` that expires
at instant 100, probed by a request at instant 50 (strictly before expiry):
the stored bytes are returned and the state is untouched. -/
theorem C2_cache_ttl_witness :
    (50 : Int) < 100 ∧
    processGifRequest
        { gifCache := mapInsert [] (gifKey 320 140 10)
            { buf := buildCountdownGIF 0 320 140 10, expiresAt := 100 },
          gifInFlight := [], builds := 7 }
        { w := 320, h := 140, s := 10, now := 50, buildOk := true } =
      { st := { gifCache := mapInsert [] (gifKey 320 140 10)
                  { buf := buildCountdownGIF 0 320 140 10, expiresAt := 100 },
                gifInFlight := [], builds := 7 },
        resp := Response.ok (buildCountdownGIF 0 320 140 10),
        trace := [Ev.cacheHit] } :=
  ⟨by decide,
    (C2_cache_ttl
        { gifCache := mapInsert [] (gifKey 320 140 10)
            { buf := buildCountdownGIF 0 320 140 10, expiresAt := 100 },
          gifInFlight := [], builds := 7 }
        { w := 320, h := 140, s := 10, now := 50, buildOk := true }
        { buf := buildCountdownGIF 0 320 140 10, expiresAt := 100 }
        (mapLookup_insert_self _ _ _)).1 (by decide)⟩

/-- When no in-flight entry exists for a request's key, none exists after the
request either: a cache hit leaves the map untouched, and a fresh build
removes its own entry in the `finally` step (server.js line 413) whether the
build succeeds or fails. -/
theorem processGifRequest_inFlight_none (st : ServerState) (r3 : GifReq)
    (hf : mapLookup st.gifInFlight (gifKey r3.w r3.h r3.s) = none) :
    mapLookup (processGifRequest st r3).st.gifInFlight (gifKey r3.w r3.h r3.s) = none := by
  by_cases hfresh : ∃ e, mapLookup st.gifCache (gifKey r3.w r3.h r3.s) = some e ∧
      r3.now < e.expiresAt
  · obtain ⟨e, he, hlt⟩ := hfresh
    rw [processGifRequest_hit st r3 e he hlt]
    exact hf
  · have hc3 : ∀ e, mapLookup st.gifCache (gifKey r3.w r3.h r3.s) = some e →
        e.expiresAt ≤ r3.now := by
      intro e he
      by_contra hgt
      exact hfresh ⟨e, he, by omega⟩
    rw [processGifRequest_miss st r3 hc3]
    cases hok : r3.buildOk
    · rw [processGifMiss_fail st r3 _ hf hok]
      exact hf
    · rw [processGifMiss_ok st r3 _ hf hok]
      exact hf

/-- Counterexample to C3 as stated: a build is also started when the cache
holds an *expired* entry for the key (lines 382-385 fall through without
deleting it), and a throwing build never runs `gifCache.set`, so the stale
entry survives the failed request.  Concretely: an entry for `320x140_s10`
stored with `expiresAt = 50`, probed at `now = 100` by a request whose build
throws, responds 500 yet leaves the old entry in `gifCache` — the map does
not "hold no entry for k". -/
theorem C3_stale_entry_survives_failed_build :
    (processGifRequest
        { gifCache := mapInsert [] (gifKey 320 140 10)
            { buf := buildCountdownGIF 0 320 140 10, expiresAt := 50 },
          gifInFlight := [], builds := 0 }
        { w := 320, h := 140, s := 10, now := 100, buildOk := false }).resp =
      Response.serverError ∧
    mapLookup (processGifRequest
        { gifCache := mapInsert [] (gifKey 320 140 10)
            { buf := buildCountdownGIF 0 320 140 10, expiresAt := 50 },
          gifInFlight := [], builds := 0 }
        { w := 320, h := 140, s := 10, now := 100, buildOk := false }).st.gifCache
      (gifKey 320 140 10) =
      some { buf := buildCountdownGIF 0 320 140 10, expiresAt := 50 } ∧
    ¬ mapLookup (processGifRequest
        { gifCache := mapInsert [] (gifKey 320 140 10)
            { buf := buildCountdownGIF 0 320 140 10, expiresAt := 50 },
          gifInFlight := [], builds := 0 }
        { w := 320, h := 140, s := 10, now := 100, buildOk := false }).st.gifCache
      (gifKey 320 140 10) = none := by
  have hc : ∀ e : CacheEntry,
      mapLookup (mapInsert [] (gifKey 320 140 10)
          { buf := buildCountdownGIF 0 320 140 10, expiresAt := 50 }) (gifKey 320 140 10) =
        some e → e.expiresAt ≤ (100 : Int) := by
    intro e he
    rw [mapLookup_insert_self, Option.some.injEq] at he
    rw [← he]
    decide
  have hstep : processGifRequest
      { gifCache := mapInsert [] (gifKey 320 140 10)
          { buf := buildCountdownGIF 0 320 140 10, expiresAt := 50 },
        gifInFlight := [], builds := 0 }
      { w := 320, h := 140, s := 10, now := 100, buildOk := false } =
      { st := { gifCache := mapInsert [] (gifKey 320 140 10)
                  { buf := buildCountdownGIF 0 320 140 10, expiresAt := 50 },
                gifInFlight := [], builds := 1 },
        resp := Response.serverError,
        trace := [Ev.render, Ev.registerInFlight, Ev.deleteInFlight] } := by
    rw [processGifRequest_miss
      { gifCache := mapInsert [] (gifKey 320 140 10)
          { buf := buildCountdownGIF 0 320 140 10, expiresAt := 50 },
        gifInFlight := [], builds := 0 }
      { w := 320, h := 140, s := 10, now := 100, buildOk := false } hc]
    exact processGifMiss_fail _ _ (gifKey 320 140 10) rfl rfl
  have hsome : mapLookup (processGifRequest
      { gifCache := mapInsert [] (gifKey 320 140 10)
          { buf := buildCountdownGIF 0 320 140 10, expiresAt := 50 },
        gifInFlight := [], builds := 0 }
      { w := 320, h := 140, s := 10, now := 100, buildOk := false }).st.gifCache
      (gifKey 320 140 10) =
      some { buf := buildCountdownGIF 0 320 140 10, expiresAt := 50 } := by
    rw [hstep]
    exact mapLookup_insert_self _ _ _
  refine ⟨by rw [hstep], hsome, fun hnone => ?_⟩
  rw [hnone] at hsome
  exact Option.noConfusion hsome

/-- C3 (amended): when the build for key `k` throws on a miss — the cache
entry for `k` is absent or already expired, and no build is in flight — then
after the request completes: the failed build stores nothing, so the
`gifCache` binding for `k` is exactly what it was before the request (in
particular `k` has no unexpired entry; a pre-existing expired entry remains
physically present but can never be served, see the counterexample),
`gifInFlight` holds no entry for `k` — and the in-flight entry is removed
whether a build succeeds or fails — the request is answered with a server
error, no entry of either map under any other key is touched, a request
finding a rejected in-flight promise also observes the server error, and a
subsequent (not earlier) request for `k` runs a fresh build. -/
theorem C3_failed_build_cleanup_amended (st : ServerState) (r : GifReq)
    (hfail : r.buildOk = false)
    (hc : ∀ e, mapLookup st.gifCache (gifKey r.w r.h r.s) = some e → e.expiresAt ≤ r.now)
    (hf : mapLookup st.gifInFlight (gifKey r.w r.h r.s) = none) :
    mapLookup (processGifRequest st r).st.gifCache (gifKey r.w r.h r.s) =
      mapLookup st.gifCache (gifKey r.w r.h r.s) ∧
    (∀ e, mapLookup (processGifRequest st r).st.gifCache (gifKey r.w r.h r.s) = some e →
      e.expiresAt ≤ r.now) ∧
    mapLookup (processGifRequest st r).st.gifInFlight (gifKey r.w r.h r.s) = none ∧
    (∀ r3 : GifReq, gifKey r3.w r3.h r3.s = gifKey r.w r.h r.s →
      mapLookup (processGifRequest st r3).st.gifInFlight (gifKey r.w r.h r.s) = none) ∧
    (processGifRequest st r).resp = Response.serverError ∧
    (∀ k2, k2 ≠ gifKey r.w r.h r.s →
      mapLookup (processGifRequest st r).st.gifCache k2 = mapLookup st.gifCache k2) ∧
    (∀ k2, k2 ≠ gifKey r.w r.h r.s →
      mapLookup (processGifRequest st r).st.gifInFlight k2 = mapLookup st.gifInFlight k2) ∧
    (∀ st2 : ServerState, ∀ r2 : GifReq, gifKey r2.w r2.h r2.s = gifKey r.w r.h r.s →
      (∀ e, mapLookup st2.gifCache (gifKey r.w r.h r.s) = some e → e.expiresAt ≤ r2.now) →
      mapLookup st2.gifInFlight (gifKey r.w r.h r.s) = some (Except.error ()) →
      (processGifRequest st2 r2).resp = Response.serverError) ∧
    (∀ r2 : GifReq, gifKey r2.w r2.h r2.s = gifKey r.w r.h r.s → r.now ≤ r2.now →
      (processGifRequest (processGifRequest st r).st r2).st.builds = st.builds + 2) := by
  have hrw : processGifRequest st r =
      { st := { gifCache := st.gifCache, gifInFlight := st.gifInFlight,
                builds := st.builds + 1 },
        resp := Response.serverError,
        trace := [Ev.render, Ev.registerInFlight, Ev.deleteInFlight] } := by
    rw [processGifRequest_miss st r hc, processGifMiss_fail st r _ hf hfail]
  refine ⟨?_, ?_, ?_, ?_, ?_, ?_, ?_, ?_, ?_⟩
  · rw [hrw]
  · intro e he
    rw [hrw] at he
    exact hc e he
  · rw [hrw]
    exact hf
  · intro r3 hkey
    rw [← hkey]
    refine processGifRequest_inFlight_none st r3 ?_
    rw [hkey]
    exact hf
  · rw [hrw]
  · intro k2 hne
    rw [hrw]
  · intro k2 hne
    rw [hrw]
  · intro st2 r2 hkey hc2 hf2
    have hcany2 : ∀ e, mapLookup st2.gifCache (gifKey r2.w r2.h r2.s) = some e →
        e.expiresAt ≤ r2.now := by
      intro e he
      refine hc2 e ?_
      rw [← hkey]
      exact he
    rw [processGifRequest_miss st2 r2 hcany2]
    simp only [processGifMiss, hkey, hf2]
  · intro r2 hkey hle
    have hgoal : ∀ st3 : ServerState, st3.gifCache = st.gifCache →
        st3.gifInFlight = st.gifInFlight → st3.builds = st.builds + 1 →
        (processGifRequest st3 r2).st.builds = st.builds + 2 := by
      intro st3 hca hfl hbu
      have hc3 : ∀ e, mapLookup st3.gifCache (gifKey r2.w r2.h r2.s) = some e →
          e.expiresAt ≤ r2.now := by
        intro e he
        rw [hca, hkey] at he
        have := hc e he
        omega
      have hf3 : mapLookup st3.gifInFlight (gifKey r2.w r2.h r2.s) = none := by
        rw [hfl, hkey]
        exact hf
      rw [processGifRequest_miss st3 r2 hc3]
      cases hok2 : r2.buildOk
      · rw [processGifMiss_fail st3 r2 _ hf3 hok2]
        show st3.builds + 1 = st.builds + 2
        omega
      · rw [processGifMiss_ok st3 r2 _ hf3 hok2]
        show st3.builds + 1 = st.builds + 2
        omega
    rw [hrw]
    exact hgoal _ rfl rfl rfl

/-- Witness for C3's amended theorem, at the interesting input: a throwing
rebuild of an expired `320x140_s10` entry (stored with `expiresAt = 50`,
probed at `now = 100`) responds 500 and leaves no in-flight entry. -/
theorem C3_failed_build_cleanup_amended_witness :
    (processGifRequest
        { gifCache := mapInsert [] (gifKey 320 140 10)
            { buf := buildCountdownGIF 0 320 140 10, expiresAt := 50 },
          gifInFlight := [], builds := 0 }
        { w := 320, h := 140, s := 10, now := 100, buildOk := false }).resp =
      Response.serverError ∧
    mapLookup (processGifRequest
        { gifCache := mapInsert [] (gifKey 320 140 10)
            { buf := buildCountdownGIF 0 320 140 10, expiresAt := 50 },
          gifInFlight := [], builds := 0 }
        { w := 320, h := 140, s := 10, now := 100, buildOk := false }).st.gifInFlight
      (gifKey 320 140 10) = none :=
  ⟨(C3_failed_build_cleanup_amended
      { gifCache := mapInsert [] (gifKey 320 140 10)
          { buf := buildCountdownGIF 0 320 140 10, expiresAt := 50 },
        gifInFlight := [], builds := 0 }
      { w := 320, h := 140, s := 10, now := 100, buildOk := false } rfl
      (by intro e he
          rw [mapLookup_insert_self, Option.some.injEq] at he
          rw [← he]
          decide)
      rfl).2.2.2.2.1,
    (C3_failed_build_cleanup_amended
      { gifCache := mapInsert [] (gifKey 320 140 10)
          { buf := buildCountdownGIF 0 320 140 10, expiresAt := 50 },
        gifInFlight := [], builds := 0 }
      { w := 320, h := 140, s := 10, now := 100, buildOk := false } rfl
      (by intro e he
          rw [mapLookup_insert_self, Option.some.injEq] at he
          rw [← he]
          decide)
      rfl).2.2.1⟩

/-- Counterexample to C4 as stated: for a fresh build from the empty state,
the event trace of the handler does not place the `gifInFlight` registration
before the render.  The async IIFE of server.js lines 399-403 contains no
`await`, so its body — the render and the cache store — runs synchronously
during promise creation, and `gifInFlight.set(key, buildPromise)` at line 405
executes only afterwards, on an already-settled promise. -/
theorem C4_render_precedes_registration_cex :
    ¬ ((processGifRequest initState
          { w := 320, h := 140, s := 10, now := 0, buildOk := true }).trace.findIdx
          (fun e => e = Ev.registerInFlight) <
        (processGifRequest initState
          { w := 320, h := 140, s := 10, now := 0, buildOk := true }).trace.findIdx
          (fun e => e = Ev.render)) ∧
    Ev.registerInFlight ∈ (processGifRequest initState
        { w := 320, h := 140, s := 10, now := 0, buildOk := true }).trace ∧
    Ev.render ∈ (processGifRequest initState
        { w := 320, h := 140, s := 10, now := 0, buildOk := true }).trace := by
  refine ⟨?_, ?_, ?_⟩ <;> decide

/-- C4 (amended): whenever a new build is started for key `k` (no fresh cache
entry, no in-flight entry), the synchronous render work of
`buildCountdownGIF` completes first; only then is the settled in-flight
handle registered in `gifInFlight[k]`, and it is registered before the
`finally` step removes it.  The spec's claimed order — registration before
the render begins — is the reverse of what the code does; no race window
exists anyway because nothing can interleave with the synchronous render. -/
theorem C4_registration_after_render (st : ServerState) (r : GifReq)
    (hc : ∀ e, mapLookup st.gifCache (gifKey r.w r.h r.s) = some e → e.expiresAt ≤ r.now)
    (hf : mapLookup st.gifInFlight (gifKey r.w r.h r.s) = none) :
    (processGifRequest st r).trace.findIdx (fun e => e = Ev.render) <
      (processGifRequest st r).trace.findIdx (fun e => e = Ev.registerInFlight) ∧
    (processGifRequest st r).trace.findIdx (fun e => e = Ev.registerInFlight) <
      (processGifRequest st r).trace.findIdx (fun e => e = Ev.deleteInFlight) ∧
    Ev.render ∈ (processGifRequest st r).trace ∧
    Ev.registerInFlight ∈ (processGifRequest st r).trace ∧
    Ev.deleteInFlight ∈ (processGifRequest st r).trace := by
  rw [processGifRequest_miss st r hc]
  cases hok : r.buildOk
  · have ht : (processGifMiss st r (gifKey r.w r.h r.s)).trace =
        [Ev.render, Ev.registerInFlight, Ev.deleteInFlight] := by
      rw [processGifMiss_fail st r _ hf hok]
    rw [ht]
    exact ⟨by decide, by decide, by decide, by decide, by decide⟩
  · have ht : (processGifMiss st r (gifKey r.w r.h r.s)).trace =
        [Ev.render, Ev.cacheSet, Ev.registerInFlight, Ev.deleteInFlight] := by
      rw [processGifMiss_ok st r _ hf hok]
    rw [ht]
    exact ⟨by decide, by decide, by decide, by decide, by decide⟩

/-- Witness for C4's amended theorem: a failing fresh build for `320x140_s10`
from the empty state renders strictly before it registers the in-flight
handle. -/
theorem C4_registration_after_render_witness :
    (processGifRequest initState
        { w := 320, h := 140, s := 10, now := 0, buildOk := false }).trace.findIdx
        (fun e => e = Ev.render) <
      (processGifRequest initState
        { w := 320, h := 140, s := 10, now := 0, buildOk := false }).trace.findIdx
        (fun e => e = Ev.registerInFlight) :=
  (C4_registration_after_render initState
    { w := 320, h := 140, s := 10, now := 0, buildOk := false }
    (fun _ he => Option.noConfusion he) rfl).1
